import Mathlib

/-
Shallow embedding of the role-resolution backend (an Express server over a
Firebase realtime database, main implementation in the unnamed server file;
a reduced variant lives in server.js with the identical matching logic).

Modelling conventions:
- A store collection is an association list `List (String × Record)` in the
  store's iteration order (the order of `for (const key in obj)`).
- `snapshot.val()` of a whole collection is `Option (List ...)`: `none`
  models the `null` value Firebase returns for an empty or absent
  collection.
- JavaScript fields that may be `undefined` are `Option String`; JS strict
  equality `a === b` on such fields is `Option` equality (`undefined ===
  undefined` is `true`), which `==` on `Option String` reproduces.
- A store read that may fail is an `Except String` value handed to the
  handler; `.error m` models the promise rejecting with message `m`, which
  the handler's `catch` block turns into an HTTP 500 response.
- External collaborators (Firebase token verification, the indexed
  `orderByChild('email').equalTo(...)` query, `auth.listUsers`) are modelled
  by explicit parameters or by small definitions mirroring their documented
  contracts.
-/

/-- The verified caller attached to `req.user` by the authentication
middleware (`uid` always present; `email`/`displayName` may be absent). -/
structure Identity where
  uid : String
  email : Option String
  emailVerified : Bool
  displayName : Option String
deriving Repr, DecidableEq

/-- A record of the `fournisseur` collection. Every field except the
registry key may be absent. -/
structure SupplierRecord where
  id : Option String
  email : Option String
  name : Option String
  departement : Option String
  telephone : Option String
  address : Option String
deriving Repr, DecidableEq

/-- A record of the `admin` collection; only its `email` child takes part in
role resolution. -/
structure AdminRecord where
  email : Option String
deriving Repr, DecidableEq

/-- The `fournisseur` collection in store iteration order. -/
abbrev SupplierStore := List (String × SupplierRecord)

/-- The `admin` collection in store iteration order. -/
abbrev AdminStore := List (String × AdminRecord)

/-- The match test of the supplier scan:
`supplier.email === user.email || supplier.id === user.uid`. -/
def supplierMatches (user : Identity) (s : SupplierRecord) : Bool :=
  s.email == user.email || s.id == some user.uid

/-- The `for (const supplierId in suppliers)` scan with `break` on the first
match: returns the registry key and record of the first matching entry. -/
def findSupplier (user : Identity) : List (String × SupplierRecord) → Option (String × SupplierRecord)
  | [] => none
  | ks :: rest => if supplierMatches user ks.2 then some ks else findSupplier user rest

/-- The scan applied to a snapshot value (`none` = `null` collection, which
skips the loop entirely). -/
def supplierScan (user : Identity) : Option SupplierStore → Option (String × SupplierRecord)
  | none => none
  | some l => findSupplier user l

/-- The result of `adminRef.orderByChild('email').equalTo(email).once('value')`
followed by `.val()`: the sub-collection of records whose `email` child
equals the given value, or `null` (`none`) when no record matches. Modelled
from the store's documented equality-query contract. -/
def adminQueryVal (email : Option String) (admins : AdminStore) : Option AdminStore :=
  let hits := List.filter (fun ka => ka.2.email == email) admins
  if hits.isEmpty then none else some hits

/-- The supplier projection built by the GET /api/check-supplier handler:
`{ id: supplierId, name, departement }`. -/
structure CheckSupplierData where
  id : String
  name : Option String
  departement : Option String
deriving Repr, DecidableEq

/-- The JSON body of a successful GET /api/check-supplier response (the
`timestamp` field is not modelled). -/
structure CheckSupplierBody where
  isSupplier : Bool
  supplier : Option CheckSupplierData
  userUid : String
  userEmail : Option String
deriving Repr, DecidableEq

/-- Outcome of GET /api/check-supplier: a 200 JSON body, or the catch
block's `res.status(500).json({error, message})`. -/
inductive CheckSupplierResult where
  | success (body : CheckSupplierBody)
  | storeError (status : Nat) (error : String) (message : String)
deriving Repr, DecidableEq

/-- The GET /api/check-supplier handler body, after authentication:
reads the `fournisseur` collection, scans it, and answers. -/
def checkSupplierHandler (user : Identity)
    (supRead : Except String (Option SupplierStore)) : CheckSupplierResult :=
  match supRead with
  | .error m => .storeError 500 "Erreur interne du serveur" m
  | .ok suppliers =>
    match supplierScan user suppliers with
    | none =>
      .success { isSupplier := false, supplier := none
                 userUid := user.uid, userEmail := user.email }
    | some ks =>
      .success { isSupplier := true
                 supplier := some { id := ks.1, name := ks.2.name, departement := ks.2.departement }
                 userUid := user.uid, userEmail := user.email }

/-- The supplier projection built by the GET /api/check-roles handler:
`{ id: supplierId, name, departement, telephone, address }`. -/
structure RolesSupplierData where
  id : String
  name : Option String
  departement : Option String
  telephone : Option String
  address : Option String
deriving Repr, DecidableEq

/-- The JSON body of a successful GET /api/check-roles response
(`timestamp` not modelled). -/
structure CheckRolesBody where
  userUid : String
  userEmail : Option String
  userEmailVerified : Bool
  userDisplayName : Option String
  isSupplier : Bool
  isAdmin : Bool
  isAuthenticated : Bool
  supplier : Option RolesSupplierData
deriving Repr, DecidableEq

/-- Outcome of GET /api/check-roles: a 200 JSON body, or the catch block's
500 response. The 500 constructor carries no role fields: an aborted
resolution reports no partial result. -/
inductive CheckRolesResult where
  | success (body : CheckRolesBody)
  | storeError (status : Nat) (error : String) (message : String)
deriving Repr, DecidableEq

/-- The GET /api/check-roles handler body, after authentication: reads the
whole `fournisseur` collection, then runs the admin equality query, with the
first failure jumping to the catch block. -/
def checkRolesHandler (user : Identity)
    (supRead : Except String (Option SupplierStore))
    (admRead : Except String AdminStore) : CheckRolesResult :=
  match supRead with
  | .error m => .storeError 500 "Erreur interne du serveur" m
  | .ok suppliers =>
    match admRead with
    | .error m => .storeError 500 "Erreur interne du serveur" m
    | .ok admins =>
      let found := supplierScan user suppliers
      let adminData := adminQueryVal user.email admins
      .success
        { userUid := user.uid, userEmail := user.email
          userEmailVerified := user.emailVerified
          userDisplayName := user.displayName
          isSupplier := found.isSome
          isAdmin := adminData.isSome
          isAuthenticated := true
          supplier := found.map (fun ks =>
            { id := ks.1, name := ks.2.name, departement := ks.2.departement
              telephone := ks.2.telephone, address := ks.2.address }) }

/-- Outcome of the external token verification plus user lookup performed by
the authentication middleware: a verified identity, or a rejection carrying
the Firebase `error.code` string. -/
inductive VerifyResult where
  | ok (user : Identity)
  | fail (code : String)
deriving Repr, DecidableEq

/-- What the authentication middleware does with a request: attach the
verified user and call `next()`, or answer with an error status. -/
inductive AuthOutcome where
  | authenticated (user : Identity)
  | rejected (status : Nat) (error : String)
deriving Repr, DecidableEq

/-- JavaScript's `String.prototype.startsWith`: the second string read as a
character list is a prefix of the first. -/
def jsStartsWith (s pre : String) : Bool :=
  List.isPrefixOf pre.data s.data

/-- Token extraction `authHeader.split('Bearer ')[1]` (for a header that
passed the `startsWith('Bearer ')` test this is everything after the first
occurrence of the separator). -/
def bearerToken (h : String) : String :=
  (List.getD (h.splitOn "Bearer ") 1 "")

/-- The `authenticateFirebaseUser` middleware: missing or non-Bearer header
gives 401; a verification failure gives 404 for `auth/user-not-found` and
401 for every other error code. -/
def authenticateFirebaseUser (header : Option String)
    (verify : String → VerifyResult) : AuthOutcome :=
  match header with
  | none => .rejected 401 "Non autorisé"
  | some h =>
    if jsStartsWith h "Bearer " then
      match verify (bearerToken h) with
      | .ok u => .authenticated u
      | .fail code =>
        .rejected (if code == "auth/user-not-found" then 404 else 401)
          "Authentification échouée"
    else .rejected 401 "Non autorisé"

/-- The HTTP status an auth outcome answers with (`none` when the
middleware proceeded to the route handler). -/
def authStatus : AuthOutcome → Option Nat
  | .authenticated _ => none
  | .rejected s _ => some s

/-- Outcome of the `requireAdmin` guard middleware. -/
inductive AdminGuardOutcome where
  | proceed
  | rejected (status : Nat) (error : String)
deriving Repr, DecidableEq

/-- The `requireAdmin` middleware: 401 without a verified user, 500 when the
admin query rejects, 403 when the query returns `null`, otherwise
`next()`. -/
def requireAdmin (user : Option Identity)
    (admRead : Except String AdminStore) : AdminGuardOutcome :=
  match user with
  | none => .rejected 401 "Utilisateur non authentifié"
  | some u =>
    match admRead with
    | .error _ => .rejected 500 "Erreur interne du serveur"
    | .ok admins =>
      match adminQueryVal u.email admins with
      | none => .rejected 403 "Accès refusé"
      | some _ => .proceed

/-- The whitelist of the PUT /api/user/update handler. -/
def allowedUpdates : List String := ["displayName", "photoURL"]

/-- Outcome of PUT /api/user/update: a 400 rejection (issued before any call
to `auth.updateUser`), or the update map actually passed to
`auth.updateUser`. -/
inductive UpdateResult where
  | badRequest (error : String) (allowed : List String)
  | applied (updates : List (String × String))
deriving Repr, DecidableEq

/-- The `for (const key of allowedUpdates) if (updates[key] !== undefined)`
filter: the request body is a partial map from field name to value. -/
def filteredUpdates (body : String → Option String) : List (String × String) :=
  List.filterMap (fun k => (body k).map (fun v => (k, v))) allowedUpdates

/-- The PUT /api/user/update handler body, after authentication. -/
def userUpdateHandler (body : String → Option String) : UpdateResult :=
  if (filteredUpdates body).isEmpty then
    .badRequest "Aucune mise à jour valide fournie" allowedUpdates
  else .applied (filteredUpdates body)

/-- A user record held by the external authentication service. -/
structure AuthUser where
  uid : String
  email : Option String
  emailVerified : Bool
  displayName : Option String
  disabled : Bool
deriving Repr, DecidableEq

/-- `auth.listUsers(maxResults)`: the external service returns at most
`maxResults` users from its backing list, modelled by `take` on that list
as the documented pagination contract. -/
def listUsers (maxResults : Nat) (allUsers : List AuthUser) : List AuthUser :=
  List.take maxResults allUsers

/-- The JSON body of a successful GET /api/admin/users response
(per-user projection kept as the full `AuthUser`; `timestamp` and the
per-user `metadata` object are not modelled). -/
structure AdminUsersBody where
  count : Nat
  users : List AuthUser
deriving Repr, DecidableEq

/-- The GET /api/admin/users handler body, after authentication and the
`requireAdmin` guard: lists at most 100 users and reports their count. -/
def adminUsersHandler (allUsers : List AuthUser) : AdminUsersBody :=
  let users := listUsers 100 allUsers
  { count := users.length, users := users }

/- ===== Helper lemmas (shared) ===== -/

theorem findSupplier_append_first (user : Identity) (l₁ l₂ : SupplierStore)
    (ks : String × SupplierRecord)
    (h₁ : ∀ e ∈ l₁, supplierMatches user e.2 = false)
    (hm : supplierMatches user ks.2 = true) :
    findSupplier user (l₁ ++ ks :: l₂) = some ks := by
  induction l₁ with
  | nil => simp [findSupplier, hm]
  | cons a t ih =>
    have ha : supplierMatches user a.2 = false := h₁ a (by simp)
    simpa [findSupplier, ha] using ih (fun e he => h₁ e (by simp [he]))

theorem findSupplier_eq_none (user : Identity) (l : SupplierStore)
    (h : ∀ e ∈ l, supplierMatches user e.2 = false) :
    findSupplier user l = none := by
  induction l with
  | nil => rfl
  | cons a t ih =>
    have ha : supplierMatches user a.2 = false := h a (by simp)
    simpa [findSupplier, ha] using ih (fun e he => h e (by simp [he]))

theorem adminQueryVal_eq_none (e : Option String) (admins : AdminStore)
    (h : ∀ ka ∈ admins, (ka.2.email == e) = false) :
    adminQueryVal e admins = none := by
  have hfil : List.filter (fun ka => ka.2.email == e) admins = [] := by
    simpa [List.filter_eq_nil_iff] using h
  simp [adminQueryVal, hfil]

/- ===== Sample data for concrete instantiations ===== -/

/-- The identity of the spec's worked example. -/
def sampleUser : Identity :=
  { uid := "u1", email := some "s@x.com", emailVerified := false, displayName := none }

/-- The supplier record of the spec's worked example. -/
def acmeRecord : SupplierRecord :=
  { id := none, email := some "s@x.com", name := some "Acme"
    departement := none, telephone := none, address := none }

/-- A supplier record matching neither the sample identity's email nor its
uid. -/
def otherRecord : SupplierRecord :=
  { id := none, email := some "other@x.com", name := none
    departement := none, telephone := none, address := none }

/- ===== Claim theorems ===== -/

/-- Claim C1: the supplier scan of GET /api/check-supplier inspects the
collection in store iteration order and selects the first record whose
`email` field equals the identity's email or whose `id` field equals the
identity's unique id, and the handler then reports `isSupplier = true`; in
particular, for identity `(email s@x.com, uid u1)` and supplier store
holding only key `k1` with record `(email s@x.com, name Acme)`, the scan
returns key `k1` with that record. -/
theorem checkSupplier_first_match (user : Identity) (l₁ l₂ : SupplierStore)
    (ks : String × SupplierRecord)
    (h₁ : ∀ e ∈ l₁, supplierMatches user e.2 = false)
    (hm : supplierMatches user ks.2 = true) :
    (findSupplier user (l₁ ++ ks :: l₂) = some ks
      ∧ checkSupplierHandler user (.ok (some (l₁ ++ ks :: l₂))) =
          .success { isSupplier := true
                     supplier := some { id := ks.1, name := ks.2.name, departement := ks.2.departement }
                     userUid := user.uid, userEmail := user.email })
    ∧ findSupplier sampleUser [("k1", acmeRecord)] = some ("k1", acmeRecord) := by
  have hfind := findSupplier_append_first user l₁ l₂ ks h₁ hm
  refine ⟨⟨hfind, ?_⟩, by decide⟩
  simp [checkSupplierHandler, supplierScan, hfind]

/-- Witness for C1: the scan applied at the spec's worked example, with a
non-matching record placed before the matching one. -/
theorem checkSupplier_first_match_witness :
    findSupplier sampleUser [("k0", otherRecord), ("k1", acmeRecord)]
      = some ("k1", acmeRecord)
    ∧ checkSupplierHandler sampleUser (.ok (some [("k0", otherRecord), ("k1", acmeRecord)])) =
        .success { isSupplier := true
                   supplier := some { id := "k1", name := acmeRecord.name, departement := acmeRecord.departement }
                   userUid := sampleUser.uid, userEmail := sampleUser.email } :=
  (checkSupplier_first_match sampleUser [("k0", otherRecord)] [] ("k1", acmeRecord)
      (by decide) (by decide)).1

/-- Claim C7: when the supplier collection is absent (a null snapshot) or
empty, GET /api/check-supplier answers a success body with
`isSupplier = false` and a null supplier, and raises no error. -/
theorem checkSupplier_empty_or_absent (user : Identity) :
    checkSupplierHandler user (.ok none) =
      .success { isSupplier := false, supplier := none
                 userUid := user.uid, userEmail := user.email }
    ∧ checkSupplierHandler user (.ok (some [])) =
      .success { isSupplier := false, supplier := none
                 userUid := user.uid, userEmail := user.email } :=
  ⟨rfl, rfl⟩

/-- Claim C10: every successful GET /api/admin/users response holds at most
100 users, and its count field equals the length of its users array. -/
theorem adminUsers_count_bound (allUsers : List AuthUser) :
    (adminUsersHandler allUsers).users.length ≤ 100
    ∧ (adminUsersHandler allUsers).count = (adminUsersHandler allUsers).users.length := by
  constructor
  · simp [adminUsersHandler, listUsers, List.length_take]
  · rfl

/-- Claim C2: when neither the identity's email nor its unique id matches
any supplier record and its email matches no admin record, GET
/api/check-roles reports `isSupplier = false` and `isAdmin = false`;
moreover, for every store state the success body carries the supplier role
computed from the supplier scan and the admin role computed from the admin
query, each regardless of the other's outcome (no short-circuiting). -/
theorem checkRoles_no_match (user : Identity) (sup : Option SupplierStore) (adm : AdminStore)
    (hsup : ∀ e ∈ sup.getD [], supplierMatches user e.2 = false)
    (hadm : ∀ ka ∈ adm, (ka.2.email == user.email) = false) :
    checkRolesHandler user (.ok sup) (.ok adm) =
      .success { userUid := user.uid, userEmail := user.email
                 userEmailVerified := user.emailVerified
                 userDisplayName := user.displayName
                 isSupplier := false, isAdmin := false, isAuthenticated := true
                 supplier := none }
    ∧ ∀ (sup2 : Option SupplierStore) (adm2 : AdminStore),
        checkRolesHandler user (.ok sup2) (.ok adm2) =
          .success { userUid := user.uid, userEmail := user.email
                     userEmailVerified := user.emailVerified
                     userDisplayName := user.displayName
                     isSupplier := (supplierScan user sup2).isSome
                     isAdmin := (adminQueryVal user.email adm2).isSome
                     isAuthenticated := true
                     supplier := (supplierScan user sup2).map (fun ks =>
                       { id := ks.1, name := ks.2.name, departement := ks.2.departement
                         telephone := ks.2.telephone, address := ks.2.address }) } := by
  constructor
  · have hscan : supplierScan user sup = none := by
      cases sup with
      | none => rfl
      | some l => exact findSupplier_eq_none user l (by simpa using hsup)
    have hq := adminQueryVal_eq_none user.email adm hadm
    simp [checkRolesHandler, hscan, hq]
  · intro sup2 adm2
    rfl

/-- Witness for C2: a store whose one supplier record and one admin record
both fail to match the sample identity. -/
theorem checkRoles_no_match_witness :
    checkRolesHandler sampleUser (.ok (some [("k0", otherRecord)]))
        (.ok [("a1", { email := some "b@x.com" })]) =
      .success { userUid := sampleUser.uid, userEmail := sampleUser.email
                 userEmailVerified := sampleUser.emailVerified
                 userDisplayName := sampleUser.displayName
                 isSupplier := false, isAdmin := false, isAuthenticated := true
                 supplier := none } :=
  (checkRoles_no_match sampleUser (some [("k0", otherRecord)])
      [("a1", { email := some "b@x.com" })] (by decide) (by decide)).1

/-- Claim C3: a bearer-token-protected route whose token is missing (no
header, or a header without the Bearer prefix), malformed
(`auth/argument-error`), expired (`auth/id-token-expired`), or revoked
(`auth/id-token-revoked`) is rejected by the authentication middleware with
HTTP status 401 and no other status. -/
theorem auth_failure_responds_401 (header : Option String)
    (verify : String → VerifyResult)
    (h : header = none
       ∨ (∃ s, header = some s ∧ jsStartsWith s "Bearer " = false)
       ∨ (∃ s code, header = some s ∧ jsStartsWith s "Bearer " = true
            ∧ verify (bearerToken s) = .fail code
            ∧ (code = "auth/argument-error" ∨ code = "auth/id-token-expired"
                ∨ code = "auth/id-token-revoked"))) :
    authStatus (authenticateFirebaseUser header verify) = some 401 := by
  rcases h with h | ⟨s, hs, hb⟩ | ⟨s, code, hs, hb, hv, hc⟩
  · subst h; rfl
  · subst hs; simp [authenticateFirebaseUser, hb, authStatus]
  · subst hs
    have hne : (code == "auth/user-not-found") = false := by
      rcases hc with h | h | h <;> subst h <;> decide
    simp [authenticateFirebaseUser, hb, hv, hne, authStatus]

/-- Witness for C3: an expired token on a well-formed Bearer header. -/
theorem auth_failure_responds_401_witness :
    authStatus (authenticateFirebaseUser (some "Bearer tok")
        (fun _ => .fail "auth/id-token-expired")) = some 401 :=
  auth_failure_responds_401 (some "Bearer tok")
    (fun _ => .fail "auth/id-token-expired")
    (Or.inr (Or.inr ⟨"Bearer tok", "auth/id-token-expired", rfl, by decide, rfl,
      Or.inr (Or.inl rfl)⟩))

/-- Claim C4: PUT /api/user/update applies only the displayName and
photoURL fields of the request body, dropping every other field; a body
with no allowed field is answered 400 with `allowedUpdates` listing exactly
displayName and photoURL and no update is applied (the 400 return happens
before any call to the update operation). -/
theorem userUpdate_whitelist (body : String → Option String)
    (h : ∀ k ∈ allowedUpdates, body k = none) :
    userUpdateHandler body =
      .badRequest "Aucune mise à jour valide fournie" ["displayName", "photoURL"]
    ∧ ∀ (body2 : String → Option String) (upd : List (String × String)),
        userUpdateHandler body2 = .applied upd →
          ∀ kv ∈ upd, kv.1 ∈ allowedUpdates ∧ body2 kv.1 = some kv.2 := by
  constructor
  · have h1 : body "displayName" = none := h _ (by simp [allowedUpdates])
    have h2 : body "photoURL" = none := h _ (by simp [allowedUpdates])
    simp [userUpdateHandler, filteredUpdates, allowedUpdates, h1, h2]
  · intro body2 upd happ kv hkv
    have hupd : filteredUpdates body2 = upd := by
      by_cases he : (filteredUpdates body2).isEmpty
      · simp [userUpdateHandler, he] at happ
      · simpa [userUpdateHandler, he] using happ
    rw [← hupd] at hkv
    rcases List.mem_filterMap.mp hkv with ⟨k, hk, hf⟩
    cases hb : body2 k with
    | none => rw [hb] at hf; cases hf
    | some v =>
      rw [hb] at hf
      injection hf with hf
      subst hf
      exact ⟨hk, hb⟩

/-- Witness for C4: the spec's example body holding only a `foo` field. -/
theorem userUpdate_whitelist_witness :
    userUpdateHandler (fun k => if k = "foo" then some "bar" else none) =
      .badRequest "Aucune mise à jour valide fournie" ["displayName", "photoURL"] :=
  (userUpdate_whitelist (fun k => if k = "foo" then some "bar" else none)
      (by decide)).1

/-- Claim C5: for an authenticated identity absent from the admin registry,
with the admin store read succeeding, the requireAdmin guard answers 403
Forbidden (and in particular never 500). -/
theorem requireAdmin_non_admin_403 (u : Identity) (admins : AdminStore)
    (h : ∀ ka ∈ admins, (ka.2.email == u.email) = false) :
    requireAdmin (some u) (.ok admins) = .rejected 403 "Accès refusé" := by
  have hq := adminQueryVal_eq_none u.email admins h
  simp [requireAdmin, hq]

/-- Witness for C5: the sample identity against a registry holding one
non-matching admin record. -/
theorem requireAdmin_non_admin_403_witness :
    requireAdmin (some sampleUser) (.ok [("a1", { email := some "b@x.com" })]) =
      .rejected 403 "Accès refusé" :=
  requireAdmin_non_admin_403 sampleUser [("a1", { email := some "b@x.com" })]
    (by decide)

/-- Claim C6: a store-access failure during GET /api/check-roles surfaces as
the catch block's 500 response and aborts role resolution with no partial
result — the storeError constructor carries no role fields — whether the
supplier read or the admin query is the one that failed. -/
theorem checkRoles_store_failure (user : Identity) (m : String) :
    (∀ admRead : Except String AdminStore,
        checkRolesHandler user (.error m) admRead =
          .storeError 500 "Erreur interne du serveur" m)
    ∧ ∀ sup : Option SupplierStore,
        checkRolesHandler user (.ok sup) (.error m) =
          .storeError 500 "Erreur interne du serveur" m :=
  ⟨fun _ => rfl, fun _ => rfl⟩

/-- Counterexample to claim C8: an identity with email `A@x.com` is matched
by a supplier record stored with email `a@x.com` as soon as the record's
`id` field equals the identity's unique id, so the claim's universal
statement fails on the code. -/
theorem case_sensitive_claim_cex :
    supplierMatches
        { uid := "u1", email := some "A@x.com", emailVerified := false, displayName := none }
        { id := some "u1", email := some "a@x.com", name := none
          departement := none, telephone := none, address := none } = true
    ∧ checkSupplierHandler
        { uid := "u1", email := some "A@x.com", emailVerified := false, displayName := none }
        (.ok (some [("k1", { id := some "u1", email := some "a@x.com", name := none
                             departement := none, telephone := none, address := none })])) =
      .success { isSupplier := true
                 supplier := some { id := "k1", name := none, departement := none }
                 userUid := "u1", userEmail := some "A@x.com" } := by
  decide

/-- Claim C8 (amended): email matching is case-sensitive exact string
equality with no trimming or case-folding: an identity with email `A@x.com`
matches neither a supplier record stored with email `a@x.com` whose `id`
field differs from the identity's unique id, nor any admin record stored
with email `a@x.com`. -/
theorem email_matching_case_sensitive (u : Identity) (s : SupplierRecord)
    (adm : AdminStore)
    (hu : u.email = some "A@x.com") (hs : s.email = some "a@x.com")
    (hid : s.id ≠ some u.uid)
    (hadm : ∀ ka ∈ adm, ka.2.email = some "a@x.com") :
    supplierMatches u s = false ∧ adminQueryVal u.email adm = none := by
  have hbe : (s.email == u.email) = false := by rw [hu, hs]; decide
  have hbi : (s.id == some u.uid) = false := by
    rw [beq_eq_false_iff_ne]; exact hid
  constructor
  · simp [supplierMatches, hbe, hbi]
  · apply adminQueryVal_eq_none
    intro ka hka
    rw [hadm ka hka, hu]
    decide

/-- Witness for C8 (amended): concrete identity `A@x.com` with uid `u1`
against a supplier record `a@x.com` with id `u2` and an admin registry
holding one record with email `a@x.com`. -/
theorem email_matching_case_sensitive_witness :
    supplierMatches
        { uid := "u1", email := some "A@x.com", emailVerified := false, displayName := none }
        { id := some "u2", email := some "a@x.com", name := none
          departement := none, telephone := none, address := none } = false
    ∧ adminQueryVal (some "A@x.com") [("a1", { email := some "a@x.com" })] = none :=
  email_matching_case_sensitive
    { uid := "u1", email := some "A@x.com", emailVerified := false, displayName := none }
    { id := some "u2", email := some "a@x.com", name := none
      departement := none, telephone := none, address := none }
    [("a1", { email := some "a@x.com" })]
    rfl rfl (by decide) (by decide)

/-- Claim C9: an authenticated identity with no email field matches the
first supplier record that itself lacks an email field (undefined strictly
equals undefined), and GET /api/check-supplier reports `isSupplier = true`
even though no `id` field and no actual email value matches. -/
theorem no_email_matches_emailless_record (u : Identity)
    (l₁ l₂ : SupplierStore) (k : String) (s : SupplierRecord)
    (hu : u.email = none) (hs : s.email = none)
    (h₁ : ∀ e ∈ l₁, e.2.email ≠ none)
    (hid : ∀ e ∈ l₁ ++ (k, s) :: l₂, e.2.id ≠ some u.uid) :
    findSupplier u (l₁ ++ (k, s) :: l₂) = some (k, s)
    ∧ checkSupplierHandler u (.ok (some (l₁ ++ (k, s) :: l₂))) =
        .success { isSupplier := true
                   supplier := some { id := k, name := s.name, departement := s.departement }
                   userUid := u.uid, userEmail := u.email } := by
  have hm : supplierMatches u (k, s).2 = true := by
    simp [supplierMatches, hu, hs]
  have hfail : ∀ e ∈ l₁, supplierMatches u e.2 = false := by
    intro e he
    have hb1 : (e.2.email == u.email) = false := by
      rw [hu, beq_eq_false_iff_ne]; exact h₁ e he
    have hb2 : (e.2.id == some u.uid) = false := by
      rw [beq_eq_false_iff_ne]; exact hid e (by simp [he])
    simp [supplierMatches, hb1, hb2]
  have hfind := findSupplier_append_first u l₁ l₂ (k, s) hfail hm
  exact ⟨hfind, by simp [checkSupplierHandler, supplierScan, hfind]⟩

/-- Witness for C9: an identity with no email, a store whose first record
carries an email and whose second record lacks one, no id matching. -/
theorem no_email_matches_emailless_record_witness :
    findSupplier { uid := "u9", email := none, emailVerified := false, displayName := none }
        ([("k0", { id := none, email := some "x@x.com", name := none
                   departement := none, telephone := none, address := none })] ++
          ("k1", { id := none, email := none, name := some "Ghost"
                   departement := none, telephone := none, address := none }) :: []) =
      some ("k1", { id := none, email := none, name := some "Ghost"
                    departement := none, telephone := none, address := none })
    ∧ checkSupplierHandler { uid := "u9", email := none, emailVerified := false, displayName := none }
        (.ok (some ([("k0", { id := none, email := some "x@x.com", name := none
                              departement := none, telephone := none, address := none })] ++
          ("k1", { id := none, email := none, name := some "Ghost"
                   departement := none, telephone := none, address := none }) :: []))) =
        .success { isSupplier := true
                   supplier := some { id := "k1", name := some "Ghost", departement := none }
                   userUid := "u9", userEmail := none } :=
  no_email_matches_emailless_record
    { uid := "u9", email := none, emailVerified := false, displayName := none }
    [("k0", { id := none, email := some "x@x.com", name := none
              departement := none, telephone := none, address := none })] [] "k1"
    { id := none, email := none, name := some "Ghost"
      departement := none, telephone := none, address := none }
    rfl rfl (by decide) (by decide)
